import Mathlib

/-!
Shallow embedding of `src/ieeg_metadata_validated.py` (class `IEEGmetadataValidated`):
the annotation-merge and temporal-localization pipeline.

Modelling conventions:
* pandas DataFrames are lists of typed rows; a clips DataFrame also carries its row
  index (a list of labels) and the index name.
* Python float seconds are modelled as exact rationals `ℚ`; the values exercised by
  the pipeline (microsecond offsets divided by `1e6`, second counts multiplied by
  `1e6`) are exactly representable, so the float arithmetic of the source is exact
  rational arithmetic on them.  `int(...)` / `.astype(int)` casts truncate toward
  zero (`pyInt`).
* naive datetimes are modelled as integer second counts from an arbitrary midnight
  epoch; `pd.NaT` (from `pd.to_datetime(None)`) is `Option.none`.
* fallible code returns `Except String`; a raised exception is `Except.error`.
* file-system effects of the writer are returned as data (`SavedFiles`).
-/

/-- Truncation of a rational toward zero, the semantics of Python `int(x)` and of
numpy `.astype(int)` on floats. -/
def pyInt (q : ℚ) : ℤ := if q < 0 then -⌊-q⌋ else ⌊q⌋

/-- One row of the manually-validated seizure-times table
(columns `source`, `start`, `end`, seconds as floats). -/
structure RawSeizureEvent where
  source : String
  start : ℚ
  «end» : ℚ
deriving DecidableEq

/-- One row of an annotations DataFrame in the canonical schema. -/
structure AnnotRow where
  layer : String
  annotator : String
  description : String
  type : String
  start_time_usec : ℤ
  end_time_usec : ℤ
deriving DecidableEq

/-- Comparison key used by `sort_values(by='start_time_usec')`. -/
def annLe (a b : AnnotRow) : Prop := a.start_time_usec ≤ b.start_time_usec

instance : DecidableRel annLe := fun a b =>
  inferInstanceAs (Decidable (a.start_time_usec ≤ b.start_time_usec))

instance : IsTotal AnnotRow annLe :=
  ⟨fun a b => Int.le_total a.start_time_usec b.start_time_usec⟩

instance : IsTrans AnnotRow annLe :=
  ⟨fun _ _ _ hab hbc => le_trans hab hbc⟩

/-- Embedding of `process_seizure_annotations`: build one canonical annotation row
per seizure event (times scaled by `1e6` and cast to int), then
`sort_values(by='start_time_usec')`.  The source's sort is pandas' default
`kind='quicksort'` (numpy introsort), which sorts by the key but leaves the
relative order of tied keys unspecified: it is a numpy internal that varies with
array size (stable insertion sort below the 17-element partition cutoff, swapping
introsort above) and with the numpy build.  The embedding fixes one admissible
refinement, the stable insertion sort; none of the theorems proved about this
definition depend on that tie-order choice (they state length, key order, field
values and multiset content, all invariant under the tie order). -/
def process_seizure_annotations (seizure_times : List RawSeizureEvent) : List AnnotRow :=
  let annotations_manual := seizure_times.map (fun ev =>
    { layer := "manual_validation"
      annotator := ev.source
      description := "seizure"
      type := "seizure"
      start_time_usec := pyInt (ev.start * 1000000)
      end_time_usec := pyInt (ev.«end» * 1000000) : AnnotRow })
  annotations_manual.insertionSort annLe

/-- Hour field of a naive datetime modelled as seconds from a midnight epoch. -/
def dtHour (c : ℤ) : ℤ := c % 86400 / 3600

/-- Minute field of a naive datetime. -/
def dtMinute (c : ℤ) : ℤ := c % 86400 % 3600 / 60

/-- Second field of a naive datetime. -/
def dtSecond (c : ℤ) : ℤ := c % 86400 % 3600 % 60

/-- Zero-padded two-digit rendering used by `strftime` fields. -/
def pad2 (n : ℤ) : String := if n < 10 then "0" ++ toString n else toString n

/-- Embedding of `strftime('%H:%M:%S')` on a (non-NaT) datetime. -/
def strftimeHMS (c : ℤ) : String :=
  pad2 (dtHour c) ++ ":" ++ pad2 (dtMinute c) ++ ":" ++ pad2 (dtSecond c)

/-- Datetime plus `pd.Timedelta(seconds=d)`; `NaT` absorbs the addition. -/
def optAddSeconds : Option ℤ → ℤ → Option ℤ
  | none, _ => none
  | some s, d => some (s + d)

/-- Body of the per-clip loop of `timestamp_clips` for one `start_time_usec` value
`t`: convert to seconds, compute `days_elapsed = int(t // (24*3600))`, the absolute
time `actual_start_time + Timedelta(seconds=int(t))`, the `"Day {n} {H:M:S}"` label
and the night flag `hour >= 19 or hour < 8`.  `strftime` raises on `NaT`. -/
def timestampOne (actual_start_time : Option ℤ) (usec : ℤ) : Except String (String × Bool) :=
  let t : ℚ := (usec : ℚ) / 1000000
  let days_elapsed : ℤ := ⌊t / (24 * 3600)⌋
  match optAddSeconds actual_start_time (pyInt t) with
  | none => Except.error "NaTType does not support strftime"
  | some current_time =>
      let day_str := "Day " ++ toString (days_elapsed + 1) ++ " " ++ strftimeHMS current_time
      let hour := dtHour current_time
      Except.ok (day_str, decide (19 ≤ hour) || decide (hour < 8))

/-- The `for t in clips_df.start_time_usec` loop of `timestamp_clips`, building the
`timestamps` and `is_night` lists; the first raising iteration aborts the call. -/
def timestampLoop (actual_start_time : Option ℤ) : List ℤ → Except String (List (String × Bool))
  | [] => Except.ok []
  | u :: rest =>
      match timestampOne actual_start_time u with
      | Except.error e => Except.error e
      | Except.ok p =>
          match timestampLoop actual_start_time rest with
          | Except.error e => Except.error e
          | Except.ok ps => Except.ok (p :: ps)

/-- A value stored in the session metadata dict: a plain string, or a timestamp
slot (`Option ℤ`, with `none` for Python `None` / `NaT`). -/
inductive PyVal where
  | str (s : String)
  | dt (t : Option ℤ)
deriving DecidableEq

/-- Python `str()` of a metadata value as written by the writer.  Timestamps are
rendered by their second count (calendar rendering is not needed by any claim). -/
def pyValStr : PyVal → String
  | PyVal.str s => s
  | PyVal.dt none => "None"
  | PyVal.dt (some t) => toString t

/-- Session metadata: an insertion-ordered key/value mapping (Python dict). -/
abbrev Metadata := List (String × PyVal)

/-- Python dict lookup `d[k]`; raises `KeyError` when the key is absent. -/
def dictGet (d : Metadata) (k : String) : Except String PyVal :=
  match d.find? (fun kv => kv.1 == k) with
  | some kv => Except.ok kv.2
  | none => Except.error ("KeyError: " ++ k)

/-- Python dict assignment `d[k] = v`: updates the existing key in place keeping
its position, else appends (insertion order). -/
def dictSet (d : Metadata) (k : String) (v : PyVal) : Metadata :=
  if d.any (fun kv => kv.1 == k) then
    d.map (fun kv => if kv.1 == k then (k, v) else kv)
  else
    d ++ [(k, v)]

/-- Embedding of `pd.to_datetime` on the values the pipeline stores under
`actual_start_time`: an already-parsed timestamp, or `None` (which becomes `NaT`).
ISO-string parsing is not modelled; no code path of this module feeds a string. -/
def pd_to_datetime : PyVal → Except String (Option ℤ)
  | PyVal.dt t => Except.ok t
  | PyVal.str s => Except.error ("to_datetime on unmodelled value: " ++ s)

/-- One row of a clips DataFrame: the window bounds plus the other derived columns
supplied by the external clip-construction collaborator, optionally augmented with
the `is_night` column. -/
structure Clip where
  start_time_usec : ℤ
  end_time_usec : ℤ
  extra : List (String × String)
  is_night : Option Bool
deriving DecidableEq

/-- A clips DataFrame: row index (name and labels) plus rows. -/
structure ClipsDf where
  indexName : Option String
  index : List String
  rows : List Clip
deriving DecidableEq

/-- Embedding of `timestamp_clips(clips_df, metadata_dict)`: parse
`metadata_dict['actual_start_time']`, run the per-clip loop, then set the
DataFrame index to the timestamp labels (named `timestamp`) and assign the
`is_night` column. -/
def timestamp_clips (clips_df : ClipsDf) (metadata_dict : Metadata) : Except String ClipsDf :=
  match dictGet metadata_dict "actual_start_time" with
  | Except.error e => Except.error e
  | Except.ok v =>
      match pd_to_datetime v with
      | Except.error e => Except.error e
      | Except.ok actual_start_time =>
          match timestampLoop actual_start_time (clips_df.rows.map (fun c => c.start_time_usec)) with
          | Except.error e => Except.error e
          | Except.ok pairs =>
              Except.ok { indexName := some "timestamp"
                          index := pairs.map (fun p => p.1)
                          rows := List.zipWith (fun c p => { c with is_night := some p.2 })
                            clips_df.rows pairs }

/-- Python-object-level view of a `timestamp_clips` call.  The argument is passed
by object reference into a heap of DataFrames; the index and column assignments
mutate the referent in place, and the function returns the same reference. -/
def timestamp_clips_py (heap : List ClipsDf) (r : ℕ) (metadata_dict : Metadata) :
    Except String (List ClipsDf × ℕ) :=
  match heap.get? r with
  | none => Except.error "invalid object reference"
  | some clips_df =>
      match timestamp_clips clips_df metadata_dict with
      | Except.error e => Except.error e
      | Except.ok clips2 => Except.ok (heap.set r clips2, r)

/-- CSV rendering of one annotation row. -/
def annRowCsv (a : AnnotRow) : String :=
  a.layer ++ "," ++ a.annotator ++ "," ++ a.description ++ "," ++ a.type ++ "," ++
    toString a.start_time_usec ++ "," ++ toString a.end_time_usec

/-- Lines of `annotations_df.to_csv(..., index=False)`: a header line followed by
one line per row, with no row-index column. -/
def annotationsCsv (annotations_df : List AnnotRow) : List String :=
  "layer,annotator,description,type,start_time_usec,end_time_usec" ::
    annotations_df.map annRowCsv

/-- Python `str()` of a bool, as pandas writes the `is_night` column. -/
def pyBool (b : Bool) : String := if b then "True" else "False"

/-- CSV rendering of the data columns of one clip row. -/
def clipRowCsv (c : Clip) : String :=
  String.intercalate ","
    (toString c.start_time_usec :: toString c.end_time_usec ::
      c.extra.map (fun kv => kv.2) ++
        (match c.is_night with
         | none => []
         | some b => [pyBool b]))

/-- Header line of `clips_df.to_csv(...)`: the (possibly empty) index name,
then the data column names. -/
def clipsCsvHeader (clips_df : ClipsDf) : String :=
  String.intercalate ","
    ((match clips_df.indexName with
      | none => ""
      | some n => n) ::
      "start_time_usec" :: "end_time_usec" ::
      (match clips_df.rows with
       | [] => []
       | c :: _ =>
           c.extra.map (fun kv => kv.1) ++
             (match c.is_night with
              | none => []
              | some _ => ["is_night"])))

/-- Lines of `clips_df.to_csv(...)` (default `index=True`): a header line, then one
line per row whose first field is that row's index label. -/
def clipsCsv (clips_df : ClipsDf) : List String :=
  clipsCsvHeader clips_df ::
    List.zipWith (fun lbl c => lbl ++ "," ++ clipRowCsv c) clips_df.index clips_df.rows

/-- Lines of `metadata.txt`: one `key: value` line per dict entry, in insertion
order. -/
def metadataTxt (metadata_dict : Metadata) : List String :=
  metadata_dict.map (fun kv => kv.1 ++ ": " ++ pyValStr kv.2)

/-- All directories created by `Path(...).mkdir(parents=True, exist_ok=True)` for a
target path: every non-empty prefix of the path. -/
def pathPrefixes (p : List String) : List (List String) :=
  (List.range p.length).map (fun i => p.take (i + 1))

/-- Add a directory to a file-system (a list of existing directories) if it is not
already present (`exist_ok=True`). -/
def insertNew (fs : List (List String)) (q : List String) : List (List String) :=
  if q ∈ fs then fs else fs ++ [q]

/-- Effect of `mkdir(parents=True, exist_ok=True)` on a file-system: create every
missing prefix of the path. -/
def mkdirAll (fs : List (List String)) (ds : List (List String)) : List (List String) :=
  ds.foldl insertNew fs

/-- The on-disk artifacts produced by one `save_validated_metadata` call. -/
structure SavedFiles where
  dirsMade : List (List String)
  files : List (List String × List String)
deriving DecidableEq

/-- Stand-in for the default output root `Path(__file__).parent.parent / 'data'`. -/
def defaultDataPath : List String := ["data"]

/-- Embedding of `save_validated_metadata`: ensure `path_to_save/record_id/
dataset_name` exists (idempotent, with parents), then write `annotations.csv`
(no row index), `clips.csv` (with row index) and `metadata.txt` there. -/
def save_validated_metadata (record_id dataset_name : String)
    (annotations_df_validated : List AnnotRow) (clips_df_validated : ClipsDf)
    (metadata_dict : Metadata) (path_to_save : List String) : SavedFiles :=
  let target := path_to_save ++ [record_id, dataset_name]
  { dirsMade := pathPrefixes target
    files :=
      [(target ++ ["annotations.csv"], annotationsCsv annotations_df_validated),
       (target ++ ["clips.csv"], clipsCsv clips_df_validated),
       (target ++ ["metadata.txt"], metadataTxt metadata_dict)] }

/-- Python `pd.concat([xs, ys], ignore_index=True)` on two aligned tables:
concatenation preserving the relative order of each part. -/
def pd_concat {α : Type} (xs ys : List α) : List α := xs ++ ys

/-- The per-day row handed to `_process_single_session` (field
`ieegportalsubjno` carries the dataset name). -/
structure SessionRow where
  ieegportalsubjno : String
deriving DecidableEq

/-- Result of the external `save_metadata(record_id, dataset_name)` fetch:
`(channels_df, annotations_df, metadata_dict, clips_df)`. -/
structure FetchResult where
  channels_df : List String
  annotations_df : List AnnotRow
  metadata_dict : Metadata
  clips_df : ClipsDf

/-- A start-times table, as rows of cells; a cell is a timestamp or a missing
marker (`NaN`/`NaT`, modelled `none`). -/
abbrev StartTimesDf := List (List (Option ℤ))

/-- Pandas `df.empty`: true when either axis is empty. -/
def dfEmpty (df : StartTimesDf) : Bool :=
  match df with
  | [] => true
  | r :: _ => r.isEmpty

/-- Embedding of `start_times_df.iloc[:, idx].values[0]`: the first row's cell in
column `idx`; raises `IndexError` when out of bounds. -/
def stValues0 (df : StartTimesDf) (idx : ℕ) : Except String (Option ℤ) :=
  match df with
  | [] => Except.error "IndexError: index 0 is out of bounds"
  | r :: _ =>
      match r.get? idx with
      | none => Except.error "IndexError: single positional indexer is out-of-bounds"
      | some v => Except.ok v

/-- Pandas `pd.isna` on a cell. -/
def pdIsna (v : Option ℤ) : Bool := v.isNone

/-- The `if not start_times_df.empty:` block of `_process_single_session`: when the
table is non-empty, read the cell at positional index `idx`, store it (or `None`
when missing) under `metadata_dict['actual_start_time']`, and run
`timestamp_clips`; when the table is empty, leave metadata and clips unchanged. -/
def sessionStartTimeStep (start_times_df : StartTimesDf) (idx : ℕ)
    (metadata_dict : Metadata) (clips_df_validated : ClipsDf) :
    Except String (Metadata × ClipsDf) :=
  if dfEmpty start_times_df = false then
    match stValues0 start_times_df idx with
    | Except.error e => Except.error e
    | Except.ok cell =>
        let start_time_value : Option ℤ := if pdIsna cell = false then cell else none
        let metadata_dict := dictSet metadata_dict "actual_start_time"
          (PyVal.dt start_time_value)
        match timestamp_clips clips_df_validated metadata_dict with
        | Except.error e => Except.error e
        | Except.ok clips2 => Except.ok (metadata_dict, clips2)
  else Except.ok (metadata_dict, clips_df_validated)

/-- Embedding of `_process_single_session`.  The external collaborators
`save_metadata` (base fetch, from `IEEGmetadata`) and `_ieeg_clips` (clip
derivation) are passed as functions.  Returns the artifacts written by the final
`save_validated_metadata`, or the raised exception. -/
def _process_single_session
    (save_metadata : String → String → FetchResult)
    (_ieeg_clips : List AnnotRow → Metadata → ClipsDf)
    (record_id : String) (data : SessionRow)
    (start_times_df : StartTimesDf)
    (seizure_times_manual : List AnnotRow)
    (idx : ℕ) : Except String SavedFiles :=
  let dataset_name := data.ieegportalsubjno
  let fetched := save_metadata record_id dataset_name
  let annotations_df_validated := pd_concat fetched.annotations_df seizure_times_manual
  let clips_df_validated := _ieeg_clips annotations_df_validated fetched.metadata_dict
  match sessionStartTimeStep start_times_df idx fetched.metadata_dict clips_df_validated with
  | Except.error e => Except.error e
  | Except.ok st =>
      Except.ok (save_validated_metadata record_id dataset_name
        annotations_df_validated st.2 st.1 defaultDataPath)

/-- One line printed by the `__main__` batch loop. -/
inductive BatchReport where
  | processing (subject : String)
  | failureMsg (subject : String) (message : String)
deriving DecidableEq

/-- Whether a report line is an error line. -/
def isFailureReport : BatchReport → Bool
  | BatchReport.processing _ => false
  | BatchReport.failureMsg _ _ => true

/-- Embedding of the `__main__` batch loop: for each subject print
`Processing {subject}`, run `process_subject_data` inside `try`, and on an
exception print `Error processing {subject}: {e}` and continue. -/
def mainBatchLoop (process_subject_data : String → Except String Unit) :
    List String → List BatchReport
  | [] => []
  | subject :: rest =>
      (BatchReport.processing subject ::
        match process_subject_data subject with
        | Except.ok _ => []
        | Except.error e => [BatchReport.failureMsg subject e]) ++
        mainBatchLoop process_subject_data rest

/-- Label produced by `timestampOne` for a valid start time, in source form. -/
def pyLabel (s usec : ℤ) : String :=
  "Day " ++ toString (⌊((usec : ℚ) / 1000000) / (24 * 3600)⌋ + 1) ++ " " ++
    strftimeHMS (s + pyInt ((usec : ℚ) / 1000000))

/-- Night flag produced by `timestampOne` for a valid start time, in source form. -/
def pyNight (s usec : ℤ) : Bool :=
  decide (19 ≤ dtHour (s + pyInt ((usec : ℚ) / 1000000))) ||
    decide (dtHour (s + pyInt ((usec : ℚ) / 1000000)) < 8)

/-- Integer-arithmetic form of `pyLabel` on non-negative offsets (used to evaluate
concrete instances, since kernel reduction cannot evaluate `ℚ` floors). -/
def intLabel (s usec : ℤ) : String :=
  "Day " ++ toString (usec / 86400000000 + 1) ++ " " ++ strftimeHMS (s + usec / 1000000)

/-- Integer-arithmetic form of `pyNight` on non-negative offsets. -/
def intNight (s usec : ℤ) : Bool :=
  decide (19 ≤ dtHour (s + usec / 1000000)) || decide (dtHour (s + usec / 1000000) < 8)

theorem pyInt_of_nonneg {q : ℚ} (h : 0 ≤ q) : pyInt q = ⌊q⌋ := by
  unfold pyInt
  rw [if_neg (not_lt.mpr h)]

theorem floor_q_div_1000000 (n : ℤ) : ⌊(n : ℚ) / 1000000⌋ = n / 1000000 := by
  simpa using Rat.floor_intCast_div_natCast n 1000000

theorem floor_q_div_86400000000 (n : ℤ) : ⌊(n : ℚ) / 86400000000⌋ = n / 86400000000 := by
  simpa using Rat.floor_intCast_div_natCast n 86400000000

theorem pyLabel_of_nonneg (s : ℤ) {usec : ℤ} (h : 0 ≤ usec) :
    pyLabel s usec = intLabel s usec := by
  unfold pyLabel intLabel
  have h1 : ((1000000 : ℚ) * (24 * 3600)) = 86400000000 := by norm_num
  rw [div_div, h1, floor_q_div_86400000000, pyInt_of_nonneg (by positivity),
    floor_q_div_1000000]

theorem pyNight_of_nonneg (s : ℤ) {usec : ℤ} (h : 0 ≤ usec) :
    pyNight s usec = intNight s usec := by
  unfold pyNight intNight
  rw [pyInt_of_nonneg (by positivity), floor_q_div_1000000]

theorem timestampOne_some (s usec : ℤ) :
    timestampOne (some s) usec = Except.ok (pyLabel s usec, pyNight s usec) := rfl

theorem timestampOne_none (usec : ℤ) :
    timestampOne none usec = Except.error "NaTType does not support strftime" := rfl

theorem timestampLoop_some (s : ℤ) (us : List ℤ) :
    timestampLoop (some s) us = Except.ok (us.map (fun u => (pyLabel s u, pyNight s u))) := by
  induction us with
  | nil => rfl
  | cons u rest ih => simp [timestampLoop, timestampOne_some, ih]

theorem timestampLoop_none_of_ne_nil {us : List ℤ} (h : us ≠ []) :
    timestampLoop none us = Except.error "NaTType does not support strftime" := by
  cases us with
  | nil => exact absurd rfl h
  | cons u rest => simp [timestampLoop, timestampOne_none]

theorem timestamp_clips_of_some {metadata_dict : Metadata} {s : ℤ}
    (hmd : dictGet metadata_dict "actual_start_time" = Except.ok (PyVal.dt (some s)))
    (clips_df : ClipsDf) :
    timestamp_clips clips_df metadata_dict =
      Except.ok
        { indexName := some "timestamp"
          index := clips_df.rows.map (fun c => pyLabel s c.start_time_usec)
          rows := clips_df.rows.map
            (fun c => { c with is_night := some (pyNight s c.start_time_usec) }) } := by
  unfold timestamp_clips
  rw [hmd]
  simp only [pd_to_datetime, timestampLoop_some, List.map_map, List.zipWith_map_right,
    List.zipWith_same]
  rfl

theorem timestamp_clips_of_none {metadata_dict : Metadata}
    (hmd : dictGet metadata_dict "actual_start_time" = Except.ok (PyVal.dt none))
    {clips_df : ClipsDf} (hrows : clips_df.rows ≠ []) :
    timestamp_clips clips_df metadata_dict =
      Except.error "NaTType does not support strftime" := by
  unfold timestamp_clips
  rw [hmd]
  simp only [pd_to_datetime]
  rw [timestampLoop_none_of_ne_nil (by simpa using hrows)]

theorem find?_map_update {d : Metadata} {k : String} (v : PyVal)
    (h : d.any (fun kv => kv.1 == k) = true) :
    (d.map (fun kv => if kv.1 == k then (k, v) else kv)).find? (fun kv => kv.1 == k) =
      some (k, v) := by
  induction d with
  | nil => simp at h
  | cons kv rest ih =>
      by_cases hk : (kv.1 == k) = true
      · rw [List.map_cons, if_pos hk, List.find?_cons_of_pos _ (by simp)]
      · have h' : rest.any (fun kv => kv.1 == k) = true := by
          simpa [hk] using h
        rw [List.map_cons, if_neg hk]
        have step : List.find? (fun kv => kv.1 == k)
            (kv :: List.map (fun kv => if kv.1 == k then (k, v) else kv) rest) =
            List.find? (fun kv => kv.1 == k)
              (List.map (fun kv => if kv.1 == k then (k, v) else kv) rest) := by
          apply List.find?_cons_of_neg
          exact hk
        rw [step]
        exact ih h'

theorem find?_append_of_none {α : Type} {p : α → Bool} {l l' : List α}
    (h : l.find? p = none) : (l ++ l').find? p = l'.find? p := by
  induction l with
  | nil => rfl
  | cons a rest ih =>
      by_cases ha : p a = true
      · rw [List.find?_cons_of_pos _ ha] at h
        exact absurd h (by simp)
      · rw [List.find?_cons_of_neg _ ha] at h
        rw [List.cons_append, List.find?_cons_of_neg _ ha]
        exact ih h

theorem dictGet_dictSet_self (d : Metadata) (k : String) (v : PyVal) :
    dictGet (dictSet d k v) k = Except.ok v := by
  unfold dictSet
  by_cases h : d.any (fun kv => kv.1 == k) = true
  · rw [if_pos h]
    unfold dictGet
    rw [find?_map_update v h]
  · rw [if_neg h]
    have hnone : d.find? (fun kv => kv.1 == k) = none := by
      rw [List.find?_eq_none]
      intro x hx hpx
      exact h (List.any_eq_true.mpr ⟨x, hx, hpx⟩)
    unfold dictGet
    rw [find?_append_of_none hnone, List.find?_cons_of_pos _ (by simp)]

theorem stValues0_dfEmpty {st : StartTimesDf} {idx : ℕ} {v : Option ℤ}
    (h : stValues0 st idx = Except.ok v) : dfEmpty st = false := by
  cases st with
  | nil => simp [stValues0] at h
  | cons r rest =>
      cases r with
      | nil => simp [stValues0] at h
      | cons x xs => rfl

theorem sessionStartTimeStep_none_error {st : StartTimesDf} {idx : ℕ} (md : Metadata)
    {clips_df : ClipsDf} (hcell : stValues0 st idx = Except.ok none)
    (hrows : clips_df.rows ≠ []) :
    sessionStartTimeStep st idx md clips_df =
      Except.error "NaTType does not support strftime" := by
  unfold sessionStartTimeStep
  rw [stValues0_dfEmpty hcell, if_pos rfl, hcell]
  simp only [pdIsna, Option.isNone, ite_self]
  rw [timestamp_clips_of_none (dictGet_dictSet_self md "actual_start_time" (PyVal.dt none))
    hrows]

theorem process_single_session_error (sm : String → String → FetchResult)
    (ic : List AnnotRow → Metadata → ClipsDf) (rid : String) (row : SessionRow)
    (st : StartTimesDf) (manual : List AnnotRow) (idx : ℕ) (e : String)
    (h : sessionStartTimeStep st idx (sm rid row.ieegportalsubjno).metadata_dict
      (ic (pd_concat (sm rid row.ieegportalsubjno).annotations_df manual)
        (sm rid row.ieegportalsubjno).metadata_dict) = Except.error e) :
    _process_single_session sm ic rid row st manual idx = Except.error e := by
  simp only [_process_single_session]
  rw [h]

theorem process_single_session_ok {sm : String → String → FetchResult}
    {ic : List AnnotRow → Metadata → ClipsDf} {rid : String} {row : SessionRow}
    {st : StartTimesDf} {manual : List AnnotRow} {idx : ℕ} {saved : SavedFiles}
    (h : _process_single_session sm ic rid row st manual idx = Except.ok saved) :
    ∃ st2 : Metadata × ClipsDf,
      sessionStartTimeStep st idx (sm rid row.ieegportalsubjno).metadata_dict
          (ic (pd_concat (sm rid row.ieegportalsubjno).annotations_df manual)
            (sm rid row.ieegportalsubjno).metadata_dict) = Except.ok st2 ∧
      saved = save_validated_metadata rid row.ieegportalsubjno
        (pd_concat (sm rid row.ieegportalsubjno).annotations_df manual) st2.2 st2.1
        defaultDataPath := by
  simp only [_process_single_session] at h
  split at h
  · exact absurd h (by simp)
  · rename_i st2 heq
    refine ⟨st2, heq, ?_⟩
    injection h with h2
    exact h2.symm

theorem mainBatchLoop_processing_mem (f : String → Except String Unit)
    (subjects : List String) (s : String) (hs : s ∈ subjects) :
    BatchReport.processing s ∈ mainBatchLoop f subjects := by
  induction subjects with
  | nil => simp at hs
  | cons a rest ih =>
      rw [mainBatchLoop]
      rcases List.mem_cons.mp hs with h | h
      · subst h
        exact List.mem_append_left _ (List.mem_cons_self _ _)
      · exact List.mem_append_right _ (ih h)

theorem mainBatchLoop_failure_mem (f : String → Except String Unit)
    (subjects : List String) (s : String) (e : String) (hs : s ∈ subjects)
    (he : f s = Except.error e) :
    BatchReport.failureMsg s e ∈ mainBatchLoop f subjects := by
  induction subjects with
  | nil => simp at hs
  | cons a rest ih =>
      rw [mainBatchLoop]
      rcases List.mem_cons.mp hs with h | h
      · subst h
        rw [he]
        exact List.mem_append_left _ (List.mem_cons_of_mem _ (List.mem_cons_self _ _))
      · exact List.mem_append_right _ (ih h)

theorem mainBatchLoop_countP_failure (f : String → Except String Unit)
    (subjects : List String) :
    (mainBatchLoop f subjects).countP isFailureReport =
      subjects.countP (fun s => (f s).isOk = false) := by
  induction subjects with
  | nil => rfl
  | cons a rest ih =>
      rw [mainBatchLoop, List.countP_append, List.countP_cons, ih]
      cases hf : f a with
      | ok u => simp [List.countP_cons, isFailureReport, Except.isOk, Except.toBool, hf]
      | error e =>
          simp [List.countP_cons, isFailureReport, Except.isOk, Except.toBool, hf,
            Nat.add_comm]

theorem countP_eq_one_of_unique {α : Type} (l : List α) (p : α → Bool) (k : ℕ)
    (hk : k < l.length) (htrue : p (l.get ⟨k, hk⟩) = true)
    (hfalse : ∀ j (hj : j < l.length), j ≠ k → p (l.get ⟨j, hj⟩) = false) :
    l.countP p = 1 := by
  induction l generalizing k with
  | nil => exact absurd hk (Nat.not_lt_zero k)
  | cons a t ih =>
      cases k with
      | zero =>
          have hzero : t.countP p = 0 := by
            rw [List.countP_eq_zero]
            intro x hx
            rcases List.mem_iff_get.mp hx with ⟨j, rfl⟩
            have hj1 := hfalse (j.1 + 1) (Nat.succ_lt_succ j.2) (Nat.succ_ne_zero _)
            simpa using hj1
          rw [List.countP_cons, hzero]
          simpa using htrue
      | succ k0 =>
          have hk0 : k0 < t.length := Nat.lt_of_succ_lt_succ hk
          have ha : p a = false := by
            have h0 := hfalse 0 (Nat.succ_pos _) (Nat.succ_ne_zero k0).symm
            simpa using h0
          have ht : t.countP p = 1 := by
            refine ih k0 hk0 htrue ?_
            intro j hj hne
            have hj1 := hfalse (j + 1) (Nat.succ_lt_succ hj)
              (fun hc => hne (Nat.succ_injective hc))
            simpa using hj1
          rw [List.countP_cons, ha, ht]
          simp

/-- Annotation row prescribed by the spec for one raw seizure event: times scaled
by `1e6` and floored, fixed layer/description/type tags, annotator from `source`. -/
def specAnnOf (ev : RawSeizureEvent) : AnnotRow :=
  { layer := "manual_validation"
    annotator := ev.source
    description := "seizure"
    type := "seizure"
    start_time_usec := ⌊ev.start * 1000000⌋
    end_time_usec := ⌊ev.«end» * 1000000⌋ }

/-- C4: for raw seizure events with non-negative times, the normalizer produces
exactly one annotation per event (as a multiset: a permutation of the per-event
image), with `start_time_usec = ⌊start * 1e6⌋`, `end_time_usec = ⌊end * 1e6⌋`,
`layer = "manual_validation"`, `description = type = "seizure"` and
`annotator = source`. -/
theorem c4_normalize_fields (seizure_times : List RawSeizureEvent)
    (h : ∀ ev ∈ seizure_times, 0 ≤ ev.start ∧ 0 ≤ ev.«end») :
    (process_seizure_annotations seizure_times).Perm (seizure_times.map specAnnOf) := by
  unfold process_seizure_annotations
  refine (List.perm_insertionSort annLe _).trans ?_
  rw [List.map_congr_left]
  intro ev hev
  have hs := (h ev hev).1
  have he := (h ev hev).2
  unfold specAnnOf
  rw [pyInt_of_nonneg (by positivity), pyInt_of_nonneg (by positivity)]

/-- Concrete event from the spec example: `{source: "A", start: 1.5, end: 2.25}`. -/
def evA : RawSeizureEvent := { source := "A", start := 3 / 2, «end» := 9 / 4 }

theorem c4_normalize_fields_witness :
    (process_seizure_annotations [evA]).Perm ([evA].map specAnnOf) ∧
    process_seizure_annotations [evA] =
      [{ layer := "manual_validation", annotator := "A", description := "seizure",
         type := "seizure", start_time_usec := 1500000, end_time_usec := 2250000 }] := by
  have h1 : pyInt ((3 / 2 : ℚ) * 1000000) = 1500000 := by
    unfold pyInt
    rw [show ((3 / 2 : ℚ) * 1000000) = ((1500000 : ℤ) : ℚ) by norm_num,
      if_neg (by norm_num), Int.floor_intCast]
  have h2 : pyInt ((9 / 4 : ℚ) * 1000000) = 2250000 := by
    unfold pyInt
    rw [show ((9 / 4 : ℚ) * 1000000) = ((2250000 : ℤ) : ℚ) by norm_num,
      if_neg (by norm_num), Int.floor_intCast]
  constructor
  · exact c4_normalize_fields [evA]
      (by intro ev hev; rw [List.mem_singleton] at hev; subst hev; constructor <;> norm_num [evA])
  · unfold process_seizure_annotations evA
    simp only [List.map_cons, List.map_nil, List.insertionSort, List.orderedInsert, h1, h2]

/-- Timestamp label prescribed by the spec: with `t = usec / 1e6` seconds,
`"Day {⌊t / 86400⌋ + 1} {start_time + ⌊t⌋ seconds formatted as HH:MM:SS}"`. -/
def specTimestampLabel (start_time usec : ℤ) : String :=
  "Day " ++ toString (⌊((usec : ℚ) / 1000000) / 86400⌋ + 1) ++ " " ++
    strftimeHMS (start_time + ⌊(usec : ℚ) / 1000000⌋)

theorem specTimestampLabel_eq_int (s usec : ℤ) :
    specTimestampLabel s usec = intLabel s usec := by
  unfold specTimestampLabel intLabel
  rw [div_div, show ((1000000 : ℚ) * 86400) = 86400000000 by norm_num,
    floor_q_div_86400000000, floor_q_div_1000000]

/-- C5: for a clip with non-negative `start_time_usec` and a valid (non-missing)
start time, `timestamp_clips` succeeds and assigns that clip the label
`"Day {⌊t/86400⌋ + 1} {HH:MM:SS of start_time + ⌊t⌋}"` (`specTimestampLabel`),
at the clip's position in the index. -/
theorem c5_timestamp_label {clips_df : ClipsDf} {metadata_dict : Metadata} {s : ℤ}
    {i : ℕ} {ci : Clip}
    (hmd : dictGet metadata_dict "actual_start_time" = Except.ok (PyVal.dt (some s)))
    (hi : clips_df.rows.get? i = some ci) (husec : 0 ≤ ci.start_time_usec) :
    ∃ out, timestamp_clips clips_df metadata_dict = Except.ok out ∧
      out.index.get? i = some (specTimestampLabel s ci.start_time_usec) := by
  refine ⟨_, timestamp_clips_of_some hmd clips_df, ?_⟩
  show (clips_df.rows.map (fun c => pyLabel s c.start_time_usec)).get? i =
    some (specTimestampLabel s ci.start_time_usec)
  rw [List.get?_map, hi]
  show some (pyLabel s ci.start_time_usec) = some (specTimestampLabel s ci.start_time_usec)
  rw [specTimestampLabel_eq_int, pyLabel_of_nonneg s husec]

/-- Clip at an offset of 90000 seconds (1 day + 1 hour) used by the spec example. -/
def clipW : Clip :=
  { start_time_usec := 90000000000, end_time_usec := 90060000000, extra := [],
    is_night := none }

/-- One-clip DataFrame for the C5 witness. -/
def clipsDfW : ClipsDf := { indexName := none, index := ["0"], rows := [clipW] }

/-- Metadata with a midnight start time for the C5 witness. -/
def mdW : Metadata := [("actual_start_time", PyVal.dt (some 0))]

theorem c5_timestamp_label_witness :
    (0 : ℤ) ≤ clipW.start_time_usec ∧
    ∃ out, timestamp_clips clipsDfW mdW = Except.ok out ∧
      out.index.get? 0 = some "Day 2 01:00:00" := by
  refine ⟨by decide, ?_⟩
  have hmd : dictGet mdW "actual_start_time" = Except.ok (PyVal.dt (some 0)) := rfl
  have hi : clipsDfW.rows.get? 0 = some clipW := rfl
  obtain ⟨out, hout, hlab⟩ := c5_timestamp_label hmd hi (by decide)
  refine ⟨out, hout, ?_⟩
  rw [hlab, specTimestampLabel_eq_int]
  decide

/-- C6: for a clip with non-negative `start_time_usec` and a valid start time,
`timestamp_clips` succeeds, rewrites only the clip's `is_night` field at its
position, and the assigned flag is `true` exactly when the hour of the absolute
time `start_time + ⌊t⌋` lies in the night window `[19:00, 08:00)`. -/
theorem c6_night_flag {clips_df : ClipsDf} {metadata_dict : Metadata} {s : ℤ}
    {i : ℕ} {ci : Clip}
    (hmd : dictGet metadata_dict "actual_start_time" = Except.ok (PyVal.dt (some s)))
    (hi : clips_df.rows.get? i = some ci) (husec : 0 ≤ ci.start_time_usec) :
    ∃ out, timestamp_clips clips_df metadata_dict = Except.ok out ∧
      out.rows.get? i = some { ci with is_night := some (pyNight s ci.start_time_usec) } ∧
      (pyNight s ci.start_time_usec = true ↔
        (19 ≤ dtHour (s + ⌊(ci.start_time_usec : ℚ) / 1000000⌋) ∨
          dtHour (s + ⌊(ci.start_time_usec : ℚ) / 1000000⌋) < 8)) := by
  refine ⟨_, timestamp_clips_of_some hmd clips_df, ?_, ?_⟩
  · show (clips_df.rows.map
        (fun c => { c with is_night := some (pyNight s c.start_time_usec) })).get? i =
      some { ci with is_night := some (pyNight s ci.start_time_usec) }
    rw [List.get?_map, hi]
    rfl
  · unfold pyNight
    rw [pyInt_of_nonneg (by positivity)]
    simp only [Bool.or_eq_true, decide_eq_true_eq]

/-- Clip 8 hours after start (18:00 wall clock for a 10:00 start). -/
def clipN1 : Clip :=
  { start_time_usec := 28800000000, end_time_usec := 28860000000, extra := [],
    is_night := none }

/-- Clip 9 hours after start (19:00 wall clock for a 10:00 start). -/
def clipN2 : Clip :=
  { start_time_usec := 32400000000, end_time_usec := 32460000000, extra := [],
    is_night := none }

/-- Two clips 8 and 9 hours after a 10:00 start (18:00 and 19:00 wall clock). -/
def clipsDfN : ClipsDf := { indexName := none, index := ["0", "1"], rows := [clipN1, clipN2] }

/-- Metadata with a 10:00:00 start time for the C6 witness. -/
def mdN : Metadata := [("actual_start_time", PyVal.dt (some 36000))]

theorem c6_night_flag_witness :
    (∃ out, timestamp_clips clipsDfN mdN = Except.ok out ∧
      out.rows.get? 1 = some { clipN2 with is_night := some (pyNight 36000 32400000000) } ∧
      (pyNight 36000 32400000000 = true ↔
        (19 ≤ dtHour (36000 + ⌊((32400000000 : ℤ) : ℚ) / 1000000⌋) ∨
          dtHour (36000 + ⌊((32400000000 : ℤ) : ℚ) / 1000000⌋) < 8))) ∧
    pyNight 36000 28800000000 = false ∧
    pyNight 36000 32400000000 = true := by
  refine ⟨?_, ?_, ?_⟩
  · exact c6_night_flag rfl rfl (by decide)
  · rw [pyNight_of_nonneg 36000 (by decide)]
    decide
  · rw [pyNight_of_nonneg 36000 (by decide)]
    decide

/-- One-clip DataFrame (offset 0) handed to `timestamp_clips` in the C2 analysis. -/
def clipsDfBefore : ClipsDf :=
  { indexName := none, index := ["0"],
    rows := [{ start_time_usec := 0, end_time_usec := 60000000, extra := [],
               is_night := none }] }

/-- The same DataFrame object after the `timestamp_clips` call (10:00 start):
index replaced by the timestamp label, `is_night` column added. -/
def clipsDfAfter : ClipsDf :=
  { indexName := some "timestamp", index := ["Day 1 10:00:00"],
    rows := [{ start_time_usec := 0, end_time_usec := 60000000, extra := [],
               is_night := some false }] }

/-- Metadata with a 10:00:00 start time for the C2 analysis. -/
def mdC2 : Metadata := [("actual_start_time", PyVal.dt (some 36000))]

/-- C2 counterexample: `timestamp_clips` does not leave its input value unchanged
and does not return a fresh copy.  Called on a one-object heap, it returns the
same reference `0` it was given, and the object held at that reference afterwards
(`clipsDfAfter`) differs from the input value (`clipsDfBefore`): the call mutated
its argument in place. -/
theorem c2_counterexample :
    timestamp_clips_py [clipsDfBefore] 0 mdC2 = Except.ok ([clipsDfAfter], 0) ∧
    clipsDfAfter ≠ clipsDfBefore := by
  constructor
  · have hmd : dictGet mdC2 "actual_start_time" = Except.ok (PyVal.dt (some 36000)) := rfl
    have hlbl : pyLabel 36000 0 = "Day 1 10:00:00" := by
      rw [pyLabel_of_nonneg 36000 le_rfl]
      decide
    have hnight : pyNight 36000 0 = false := by
      rw [pyNight_of_nonneg 36000 le_rfl]
      decide
    have hts2 : timestamp_clips clipsDfBefore mdC2 = Except.ok clipsDfAfter := by
      rw [timestamp_clips_of_some hmd]
      simp only [clipsDfBefore, clipsDfAfter, List.map_cons, List.map_nil, hlbl, hnight]
    unfold timestamp_clips_py
    show (match timestamp_clips clipsDfBefore mdC2 with
          | Except.error e => Except.error e
          | Except.ok clips2 => Except.ok (([clipsDfBefore] : List ClipsDf).set 0 clips2, 0)) =
      Except.ok ([clipsDfAfter], 0)
    rw [hts2]
    rfl
  · decide

/-- C2 amended: `timestamp_clips` mutates its argument in place and returns the
same object reference, not a copy.  For a valid start time it sets the object's
index to the timestamp labels (in clip order) and rewrites each row only in its
`is_night` field, preserving the clip order and every other pre-existing field. -/
theorem c2_localizer_mutates_in_place {heap : List ClipsDf} {r : ℕ} {metadata_dict : Metadata}
    {clips_df : ClipsDf} {s : ℤ}
    (hr : heap.get? r = some clips_df)
    (hmd : dictGet metadata_dict "actual_start_time" = Except.ok (PyVal.dt (some s))) :
    timestamp_clips_py heap r metadata_dict =
      Except.ok (heap.set r
        { indexName := some "timestamp"
          index := clips_df.rows.map (fun c => pyLabel s c.start_time_usec)
          rows := clips_df.rows.map
            (fun c => { c with is_night := some (pyNight s c.start_time_usec) }) }, r) := by
  unfold timestamp_clips_py
  rw [hr]
  show (match timestamp_clips clips_df metadata_dict with
        | Except.error e => Except.error e
        | Except.ok clips2 => Except.ok (heap.set r clips2, r)) = _
  rw [timestamp_clips_of_some hmd]

theorem c2_localizer_mutates_in_place_witness :
    timestamp_clips_py [clipsDfBefore] 0 mdC2 =
      Except.ok ([clipsDfBefore].set 0
        { indexName := some "timestamp"
          index := clipsDfBefore.rows.map (fun c => pyLabel 36000 c.start_time_usec)
          rows := clipsDfBefore.rows.map
            (fun c => { c with is_night := some (pyNight 36000 c.start_time_usec) }) }, 0) :=
  c2_localizer_mutates_in_place rfl rfl

/-- Base fetch used for the session-level concrete evaluations: no base
annotations, one metadata entry, no base clips. -/
def fbC1 : String → String → FetchResult := fun _ _ =>
  { channels_df := ["LA01"]
    annotations_df := []
    metadata_dict := [("patient", PyVal.str "x")]
    clips_df := { indexName := none, index := [], rows := [] } }

/-- Clip derivation used for the session-level concrete evaluations: one clip at
offset 0. -/
def icC1 : List AnnotRow → Metadata → ClipsDf := fun _ _ =>
  { indexName := none, index := ["0"],
    rows := [{ start_time_usec := 0, end_time_usec := 60000000, extra := [],
               is_night := none }] }

/-- Non-empty start-times table whose cell at positional index 2 is missing. -/
def stC1 : StartTimesDf := [[some 1672567200, some 1672567200, none]]

/-- C1 (code-bug evidence): with a non-empty start-times table whose value at the
session's positional index is missing (`NaN`), `_process_single_session` still
sets `metadata_dict['actual_start_time']` (to `None`) and still invokes the
Temporal Localizer, which raises on the first clip — the session aborts with the
`strftime`-on-`NaT` error instead of persisting un-localized clips as the spec
prescribes. -/
theorem c1_missing_start_time_runs_localizer :
    _process_single_session fbC1 icC1 "sub-RID0001" { ieegportalsubjno := "DS1" } stC1 [] 2 =
      Except.error "NaTType does not support strftime" := by
  apply process_single_session_error
  apply sessionStartTimeStep_none_error
  · rfl
  · decide

/-- C10: when `metadata_dict['actual_start_time']` is `None` and the clips table
is non-empty, `timestamp_clips` raises (`pd.to_datetime(None)` is `NaT`, whose
`strftime` fails on the first clip) rather than returning; consequently a session
reaching this state aborts before `save_validated_metadata`, so no localized
output and no artifacts are produced. -/
theorem c10_none_start_time_raises :
    (∀ (clips_df : ClipsDf) (metadata_dict : Metadata),
        dictGet metadata_dict "actual_start_time" = Except.ok (PyVal.dt none) →
        clips_df.rows ≠ [] →
        timestamp_clips clips_df metadata_dict =
          Except.error "NaTType does not support strftime") ∧
    (∀ (save_metadata : String → String → FetchResult)
        (ieeg_clips : List AnnotRow → Metadata → ClipsDf)
        (record_id : String) (row : SessionRow) (start_times_df : StartTimesDf)
        (seizure_times_manual : List AnnotRow) (idx : ℕ),
        stValues0 start_times_df idx = Except.ok none →
        (ieeg_clips (pd_concat (save_metadata record_id row.ieegportalsubjno).annotations_df
            seizure_times_manual)
          (save_metadata record_id row.ieegportalsubjno).metadata_dict).rows ≠ [] →
        _process_single_session save_metadata ieeg_clips record_id row start_times_df
            seizure_times_manual idx =
          Except.error "NaTType does not support strftime") := by
  constructor
  · intro clips_df metadata_dict hmd hrows
    exact timestamp_clips_of_none hmd hrows
  · intro sm ic rid row st manual idx hcell hrows
    exact process_single_session_error sm ic rid row st manual idx _
      (sessionStartTimeStep_none_error _ hcell hrows)

theorem c10_none_start_time_raises_witness :
    timestamp_clips
        { indexName := none, index := ["0"],
          rows := [{ start_time_usec := 0, end_time_usec := 1000000, extra := [],
                     is_night := none }] }
        [("actual_start_time", PyVal.dt none)] =
      Except.error "NaTType does not support strftime" ∧
    _process_single_session fbC1 icC1 "sub-RID0002" { ieegportalsubjno := "DS2" } [[none]] [] 0 =
      Except.error "NaTType does not support strftime" := by
  constructor
  · exact c10_none_start_time_raises.1 _ _ rfl (by decide)
  · exact c10_none_start_time_raises.2 fbC1 icC1 "sub-RID0002" _ [[none]] [] 0 rfl (by decide)

/-- C7: the merged annotation table handed to clip derivation and to the writer is
exactly the base annotations followed by the manual annotations — each part keeps
its relative order, nothing is re-sorted by time after concatenation, so every
manual annotation sits after every base annotation; and a successful session
writes `annotations.csv` from exactly this concatenation. -/
theorem c7_merged_is_concat :
    (∀ (annotations_df seizure_times_manual : List AnnotRow),
        (pd_concat annotations_df seizure_times_manual).take annotations_df.length =
          annotations_df ∧
        (pd_concat annotations_df seizure_times_manual).drop annotations_df.length =
          seizure_times_manual ∧
        (pd_concat annotations_df seizure_times_manual).length =
          annotations_df.length + seizure_times_manual.length) ∧
    (∀ (save_metadata : String → String → FetchResult)
        (ieeg_clips : List AnnotRow → Metadata → ClipsDf)
        (record_id : String) (row : SessionRow) (start_times_df : StartTimesDf)
        (seizure_times_manual : List AnnotRow) (idx : ℕ) (saved : SavedFiles),
        _process_single_session save_metadata ieeg_clips record_id row start_times_df
            seizure_times_manual idx = Except.ok saved →
        saved.files.get? 0 =
          some ((defaultDataPath ++ [record_id, row.ieegportalsubjno]) ++ ["annotations.csv"],
            annotationsCsv (pd_concat
              (save_metadata record_id row.ieegportalsubjno).annotations_df
              seizure_times_manual))) := by
  constructor
  · intro annotations_df seizure_times_manual
    exact ⟨List.take_left annotations_df seizure_times_manual,
      List.drop_left annotations_df seizure_times_manual,
      List.length_append annotations_df seizure_times_manual⟩
  · intro sm ic rid row st manual idx saved h
    obtain ⟨st2, _, rfl⟩ := process_single_session_ok h
    rfl

/-- The writer output of the successful C7 witness session. -/
def savedC7 : SavedFiles :=
  save_validated_metadata "sub-RID0003" "DS3"
    (pd_concat (fbC1 "sub-RID0003" "DS3").annotations_df [])
    (icC1 (pd_concat (fbC1 "sub-RID0003" "DS3").annotations_df [])
      (fbC1 "sub-RID0003" "DS3").metadata_dict)
    (fbC1 "sub-RID0003" "DS3").metadata_dict defaultDataPath

theorem c7_merged_is_concat_witness :
    _process_single_session fbC1 icC1 "sub-RID0003" { ieegportalsubjno := "DS3" } [] [] 2 =
      Except.ok savedC7 ∧
    savedC7.files.get? 0 =
      some ((defaultDataPath ++ ["sub-RID0003", "DS3"]) ++ ["annotations.csv"],
        annotationsCsv (pd_concat (fbC1 "sub-RID0003" "DS3").annotations_df [])) := by
  have hses : _process_single_session fbC1 icC1 "sub-RID0003"
      { ieegportalsubjno := "DS3" } [] [] 2 = Except.ok savedC7 := rfl
  exact ⟨hses, c7_merged_is_concat.2 fbC1 icC1 "sub-RID0003" _ [] [] 2 savedC7 hses⟩

theorem mem_insertNew {fs : List (List String)} {q q' : List String} (h : q' ∈ fs) :
    q' ∈ insertNew fs q := by
  unfold insertNew
  split
  · exact h
  · exact List.mem_append_left _ h

theorem self_mem_insertNew (fs : List (List String)) (q : List String) :
    q ∈ insertNew fs q := by
  unfold insertNew
  split
  · assumption
  · exact List.mem_append_right _ (List.mem_singleton.mpr rfl)

theorem mem_mkdirAll_of_mem {fs ds : List (List String)} {q : List String} (h : q ∈ fs) :
    q ∈ mkdirAll fs ds := by
  induction ds generalizing fs with
  | nil => exact h
  | cons d rest ih => exact ih (mem_insertNew h)

theorem mem_mkdirAll_self (fs : List (List String)) {ds : List (List String)}
    {d : List String} (h : d ∈ ds) : d ∈ mkdirAll fs ds := by
  induction ds generalizing fs with
  | nil => simp at h
  | cons d0 rest ih =>
      rcases List.mem_cons.mp h with h1 | h1
      · subst h1
        show d ∈ mkdirAll (insertNew fs d) rest
        exact mem_mkdirAll_of_mem (self_mem_insertNew fs d)
      · show d ∈ mkdirAll (insertNew fs d0) rest
        exact ih (insertNew fs d0) h1

theorem mkdirAll_of_all_mem {fs ds : List (List String)} (h : ∀ d ∈ ds, d ∈ fs) :
    mkdirAll fs ds = fs := by
  induction ds with
  | nil => rfl
  | cons d0 rest ih =>
      have hins : insertNew fs d0 = fs := by
        unfold insertNew
        rw [if_pos (h d0 (List.mem_cons_self _ _))]
      show (d0 :: rest).foldl insertNew fs = fs
      rw [List.foldl_cons, hins]
      exact ih (fun d hd => h d (List.mem_cons_of_mem _ hd))

theorem mkdirAll_idem (fs ds : List (List String)) :
    mkdirAll (mkdirAll fs ds) ds = mkdirAll fs ds :=
  mkdirAll_of_all_mem (fun _ hd => mem_mkdirAll_self fs hd)

theorem get?_zipWith {α β γ : Type} (f : α → β → γ) {l1 : List α} {l2 : List β} {i : ℕ}
    {a : α} {b : β} (h1 : l1.get? i = some a) (h2 : l2.get? i = some b) :
    (List.zipWith f l1 l2).get? i = some (f a b) := by
  induction l1 generalizing l2 i with
  | nil => simp at h1
  | cons x xs ih =>
      cases l2 with
      | nil => simp at h2
      | cons y ys =>
          cases i with
          | zero =>
              injection h1 with h1
              injection h2 with h2
              subst h1
              subst h2
              rfl
          | succ n => exact ih h1 h2

/-- C8: one `save_validated_metadata` call writes, under the idempotently created
directory `path_to_save/record_id/dataset_name`, the annotations table without a
synthetic row index (each data line is exactly the row's fields), the clips table
with its row index (each data line is the row's index label followed by the
fields), and the metadata as one `key: value` line per entry in insertion
order. -/
theorem c8_writer_layout (record_id dataset_name : String)
    (annotations_df_validated : List AnnotRow) (clips_df_validated : ClipsDf)
    (metadata_dict : Metadata) (path_to_save : List String) :
    (save_validated_metadata record_id dataset_name annotations_df_validated
        clips_df_validated metadata_dict path_to_save).files.map Prod.fst =
      [(path_to_save ++ [record_id, dataset_name]) ++ ["annotations.csv"],
       (path_to_save ++ [record_id, dataset_name]) ++ ["clips.csv"],
       (path_to_save ++ [record_id, dataset_name]) ++ ["metadata.txt"]] ∧
    ((save_validated_metadata record_id dataset_name annotations_df_validated
        clips_df_validated metadata_dict path_to_save).files.get? 0 =
      some ((path_to_save ++ [record_id, dataset_name]) ++ ["annotations.csv"],
        annotationsCsv annotations_df_validated) ∧
      (annotationsCsv annotations_df_validated).length =
        annotations_df_validated.length + 1 ∧
      ∀ (i : ℕ) (row : AnnotRow), annotations_df_validated.get? i = some row →
        (annotationsCsv annotations_df_validated).get? (i + 1) = some (annRowCsv row)) ∧
    ((save_validated_metadata record_id dataset_name annotations_df_validated
        clips_df_validated metadata_dict path_to_save).files.get? 1 =
      some ((path_to_save ++ [record_id, dataset_name]) ++ ["clips.csv"],
        clipsCsv clips_df_validated) ∧
      ∀ (i : ℕ) (lbl : String) (c : Clip), clips_df_validated.index.get? i = some lbl →
        clips_df_validated.rows.get? i = some c →
        (clipsCsv clips_df_validated).get? (i + 1) = some (lbl ++ "," ++ clipRowCsv c)) ∧
    ((save_validated_metadata record_id dataset_name annotations_df_validated
        clips_df_validated metadata_dict path_to_save).files.get? 2 =
      some ((path_to_save ++ [record_id, dataset_name]) ++ ["metadata.txt"],
        metadataTxt metadata_dict) ∧
      (metadataTxt metadata_dict).length = metadata_dict.length ∧
      ∀ (i : ℕ) (kv : String × PyVal), metadata_dict.get? i = some kv →
        (metadataTxt metadata_dict).get? i = some (kv.1 ++ ": " ++ pyValStr kv.2)) ∧
    ((save_validated_metadata record_id dataset_name annotations_df_validated
        clips_df_validated metadata_dict path_to_save).dirsMade =
      pathPrefixes (path_to_save ++ [record_id, dataset_name]) ∧
      ∀ fs, mkdirAll (mkdirAll fs (save_validated_metadata record_id dataset_name
          annotations_df_validated clips_df_validated metadata_dict
          path_to_save).dirsMade)
        (save_validated_metadata record_id dataset_name annotations_df_validated
          clips_df_validated metadata_dict path_to_save).dirsMade =
        mkdirAll fs (save_validated_metadata record_id dataset_name
          annotations_df_validated clips_df_validated metadata_dict
          path_to_save).dirsMade) := by
  refine ⟨rfl, ⟨rfl, ?_, ?_⟩, ⟨rfl, ?_⟩, ⟨rfl, ?_, ?_⟩, rfl, ?_⟩
  · unfold annotationsCsv
    rw [List.length_cons, List.length_map]
  · intro i row hrow
    show (annotations_df_validated.map annRowCsv).get? i = some (annRowCsv row)
    rw [List.get?_map, hrow]
    rfl
  · intro i lbl c hlbl hc
    show (List.zipWith (fun lbl c => lbl ++ "," ++ clipRowCsv c) clips_df_validated.index
      clips_df_validated.rows).get? i = some (lbl ++ "," ++ clipRowCsv c)
    exact get?_zipWith _ hlbl hc
  · unfold metadataTxt
    rw [List.length_map]
  · intro i kv hkv
    unfold metadataTxt
    rw [List.get?_map, hkv]
    rfl
  · intro fs
    exact mkdirAll_idem fs _

/-- One machine-derived annotation row used by the C8 witness. -/
def annRowW : AnnotRow :=
  { layer := "auto", annotator := "machine", description := "sz", type := "seizure",
    start_time_usec := 5, end_time_usec := 6 }

/-- Localized one-clip DataFrame used by the C8 witness. -/
def clipsDfC8 : ClipsDf :=
  { indexName := some "timestamp", index := ["Day 1 00:00:00"],
    rows := [{ start_time_usec := 0, end_time_usec := 1, extra := [("fs", "512")],
               is_night := some true }] }

/-- Two-entry metadata dict used by the C8 witness. -/
def mdC8 : Metadata := [("patient", PyVal.str "x"), ("actual_start_time", PyVal.dt (some 0))]

theorem c8_writer_layout_witness :
    (annotationsCsv [annRowW]).get? 1 = some (annRowCsv annRowW) ∧
    (clipsCsv clipsDfC8).get? 1 =
      some ("Day 1 00:00:00" ++ "," ++ clipRowCsv
        { start_time_usec := 0, end_time_usec := 1, extra := [("fs", "512")],
          is_night := some true }) ∧
    (metadataTxt mdC8).get? 0 = some ("patient" ++ ": " ++ pyValStr (PyVal.str "x")) ∧
    mkdirAll (mkdirAll []
        (save_validated_metadata "sub-RID0004" "DS4" [annRowW] clipsDfC8 mdC8
          ["data"]).dirsMade)
      (save_validated_metadata "sub-RID0004" "DS4" [annRowW] clipsDfC8 mdC8
        ["data"]).dirsMade =
      mkdirAll []
        (save_validated_metadata "sub-RID0004" "DS4" [annRowW] clipsDfC8 mdC8
          ["data"]).dirsMade := by
  obtain ⟨_, ⟨_, _, hann⟩, ⟨_, hclip⟩, ⟨_, _, hmeta⟩, _, hidem⟩ :=
    c8_writer_layout "sub-RID0004" "DS4" [annRowW] clipsDfC8 mdC8 ["data"]
  exact ⟨hann 0 annRowW rfl, hclip 0 "Day 1 00:00:00" _ rfl rfl, hmeta 0 _ rfl, hidem []⟩

/-- C9: in the top-level batch loop, when processing subject `k` raises and every
other subject succeeds, every subject of the batch (in particular `k+1..N`) is
still processed — its `Processing {subject}` line is emitted — and exactly one
failure line is reported, carrying subject `k`'s id and the error message. -/
theorem c9_batch_isolation (process_subject_data : String → Except String Unit)
    (subjects_to_find : List String) (k : ℕ) (e : String)
    (hk : k < subjects_to_find.length)
    (herr : process_subject_data (subjects_to_find.get ⟨k, hk⟩) = Except.error e)
    (hok : ∀ j (hj : j < subjects_to_find.length), j ≠ k →
      process_subject_data (subjects_to_find.get ⟨j, hj⟩) = Except.ok ()) :
    (∀ j (hj : j < subjects_to_find.length),
        BatchReport.processing (subjects_to_find.get ⟨j, hj⟩) ∈
          mainBatchLoop process_subject_data subjects_to_find) ∧
    (mainBatchLoop process_subject_data subjects_to_find).countP isFailureReport = 1 ∧
    BatchReport.failureMsg (subjects_to_find.get ⟨k, hk⟩) e ∈
      mainBatchLoop process_subject_data subjects_to_find := by
  refine ⟨?_, ?_, ?_⟩
  · intro j hj
    exact mainBatchLoop_processing_mem _ _ _ (List.get_mem _ _ _)
  · rw [mainBatchLoop_countP_failure]
    refine countP_eq_one_of_unique _ _ k hk ?_ ?_
    · have herr2 := herr
      simp only [List.get_eq_getElem] at herr2
      simp [herr2, Except.isOk, Except.toBool]
    · intro j hj hne
      have hok2 := hok j hj hne
      simp only [List.get_eq_getElem] at hok2
      simp [hok2, Except.isOk, Except.toBool]
  · exact mainBatchLoop_failure_mem _ _ _ _ (List.get_mem _ _ _) herr

/-- Per-subject processing used by the C9 witness: raises exactly on `sub-B`. -/
def fC9 : String → Except String Unit := fun s =>
  if s == "sub-B" then Except.error "boom" else Except.ok ()

theorem c9_batch_isolation_witness :
    (mainBatchLoop fC9 ["sub-A", "sub-B", "sub-C"]).countP isFailureReport = 1 ∧
    BatchReport.failureMsg "sub-B" "boom" ∈ mainBatchLoop fC9 ["sub-A", "sub-B", "sub-C"] ∧
    BatchReport.processing "sub-C" ∈ mainBatchLoop fC9 ["sub-A", "sub-B", "sub-C"] := by
  have h := c9_batch_isolation fC9 ["sub-A", "sub-B", "sub-C"] 1 "boom" (by decide) rfl
    (by
      intro j hj hne
      have hj3 : j < 3 := by simpa using hj
      interval_cases j
      · rfl
      · exact absurd rfl hne
      · rfl)
  exact ⟨h.2.1, h.2.2, h.1 2 (by decide)⟩
